import Mathlib

/-!
# Verification of the Ganamas balance and referral-bonus accounting engine

Shallow embedding of the core routes of the repository:

* `src/backend/routes/users.js` — `POST /balance/update` (balance mutator),
  `POST /` on the withdrawals router (request withdrawal), `POST /calculate-fee`.
* `src/backend/routes/referrals.js` — `POST /:taskId/complete` (task
  completion) and `checkReferralBonuses` (referral bonus engine).

The Supabase tables are modelled as lists of records inside a single state
`St`; a `.eq('id', x)` keyed update is a map over the list touching the rows
whose `id` field matches, and a `.single()` select is a `List.find?`.
JavaScript numbers holding currency amounts are modelled as `Int`
(all amounts in play are integers well below 2^53, where double arithmetic
on integers is exact).  Record fields that none of the modelled routes read
or write (timestamps, emails, free-text messages, ...) are omitted.
-/

namespace Ganamas

/-- A row of the `users` table (the fields the modelled routes touch). -/
structure User where
  id : Nat
  balance : Int
  total_earnings : Int
  tasks_completed : Nat
  referred_by : Option Nat
  deriving Repr, DecidableEq

/-- A row of the `referrals` table.  `tasks_completed` is the stored
snapshot of the referred user's task count. -/
structure Referral where
  id : Nat
  referrer_id : Nat
  referred_id : Nat
  bonus_earned : Int
  tasks_completed : Nat
  deriving Repr, DecidableEq

/-- A row of the `tasks` table. -/
structure Task where
  id : Nat
  reward : Int
  status : String
  deriving Repr, DecidableEq

/-- A row of the `user_tasks` table (one completion of a task by a user). -/
structure UserTask where
  user_id : Nat
  task_id : Nat
  status : String
  reward_amount : Int
  deriving Repr, DecidableEq

/-- A row of the `transactions` table. -/
structure Txn where
  user_id : Nat
  amount : Int
  type : String
  description : String
  status : String
  deriving Repr, DecidableEq

/-- A row of the `withdrawals` table. -/
structure Withdrawal where
  user_id : Nat
  amount : Int
  method : String
  account_info : String
  fee : Int
  net_amount : Int
  status : String
  deriving Repr, DecidableEq

/-- A row of the `notifications` table (the message body is
locale-dependent display text and is not modelled). -/
structure Notification where
  user_id : Nat
  title : String
  type : String
  deriving Repr, DecidableEq

/-- The whole persistent store. -/
structure St where
  users : List User
  tasks : List Task
  user_tasks : List UserTask
  referrals : List Referral
  transactions : List Txn
  withdrawals : List Withdrawal
  notifications : List Notification
  deriving Repr, DecidableEq

/-- Embeds `supabase.from('users').select(...).eq('id', uid).single()`. -/
def lookupUser (s : St) (uid : Nat) : Option User :=
  s.users.find? (fun u => u.id == uid)

/-- Embeds `supabase.from('users').update(...).eq('id', uid)`: apply `f` to every
row whose `id` matches (no error if no row matches). -/
def updateUsersById (s : St) (uid : Nat) (f : User → User) : St :=
  { s with users := s.users.map (fun u => if u.id == uid then f u else u) }

/-- Embeds the referral pair select keyed on referrer and referred ids. -/
def findReferral (s : St) (rid uid : Nat) : Option Referral :=
  s.referrals.find? (fun r => r.referrer_id == rid && r.referred_id == uid)

/-- Embeds `supabase.from('referrals').update(...).eq('id', i)`. -/
def updateReferralsById (s : St) (i : Nat) (f : Referral → Referral) : St :=
  { s with referrals := s.referrals.map (fun r => if r.id == i then f r else r) }

/-- Embeds the active-task select keyed on the task id. -/
def findActiveTask (s : St) (tid : Nat) : Option Task :=
  s.tasks.find? (fun t => t.id == tid && t.status == "active")

/-- Sum of the signed transaction amounts recorded for user `uid`. -/
def txnSum (s : St) (uid : Nat) : Int :=
  (s.transactions.filter (fun t => t.user_id == uid)).foldl (fun a t => a + t.amount) 0

/-! ## `POST /balance/update` (users.js lines 105–153) -/

/-- Outcome of `POST /balance/update`.  `storageError` is the 500 response
produced when the keyed update matches no row and `.single()` errors. -/
inductive BalanceResult
  | ok (balance : Int) (total_earnings : Int)
  | missingFields
  | storageError
  deriving Repr, DecidableEq

/-- Route `POST /balance/update`: `balanceChange = type === 'add' ? amount : -amount`;
updates the balance (and `total_earnings` only on `'add'`) and then inserts a
transaction row.  JS falsiness of the required fields: `!amount` is `amount = 0`,
`!type` is the empty string. -/
def updateBalance (userId : Nat) (amount : Int) (type : String)
    (description : Option String) (s : St) : BalanceResult × St :=
  if amount == 0 || type == "" then (.missingFields, s)
  else
    let balanceChange := if type == "add" then amount else -amount
    let s1 := updateUsersById s userId (fun u =>
      { u with balance := u.balance + balanceChange,
               total_earnings := if type == "add" then u.total_earnings + amount
                                 else u.total_earnings })
    match lookupUser s1 userId with
    | none => (.storageError, s1)
    | some u' =>
      let s2 := { s1 with transactions := s1.transactions ++
        [{ user_id := userId, amount := balanceChange, type := type,
           description := description.getD ("Balance " ++ type),
           status := "completed" }] }
      (.ok u'.balance u'.total_earnings, s2)

/-! ## Referral bonus engine (referrals.js lines 263–342) -/

/-- Fault injection for the storage operations inside `checkReferralBonuses`:
each mutating store call consumes the next flag; `true` makes that call throw.
An exhausted schedule means no further faults. -/
def takeFault : List Bool → Bool × List Bool
  | [] => (false, [])
  | b :: bs => (b, bs)

/-- The milestone if-chain of `checkReferralBonuses` (lines 291–300):
bonus awarded given the user's current count and the referral snapshot. -/
def milestoneBonus (tasksCompleted snapshot : Nat) : Int :=
  if tasksCompleted == 3 && snapshot < 3 then 5000
  else if tasksCompleted == 7 && snapshot < 7 then 4000
  else if tasksCompleted == 15 && snapshot < 15 then 8000
  else 0

/-- Body of `checkReferralBonuses` up to its surrounding `try`/`catch`.
A failed `.single()` select yields `data = null`, which the code handles by
returning early, so only the mutating calls are fault-injected; a thrown
fault carries the state accumulated so far (earlier writes persist). -/
def checkReferralBonusesBody (faults : List Bool) (userId : Nat) (s : St) :
    Except St St :=
  match lookupUser s userId with
  | none => .ok s
  | some user =>
    match user.referred_by with
    | none => .ok s
    | some referrerId =>
      let tasksCompleted := user.tasks_completed
      match findReferral s referrerId userId with
      | none => .ok s
      | some referral =>
        let bonusAmount := milestoneBonus tasksCompleted referral.tasks_completed
        if bonusAmount > 0 then
          let p1 := takeFault faults
          if p1.1 then .error s else
          let s1 := updateUsersById s referrerId (fun u =>
            { u with balance := u.balance + bonusAmount,
                     total_earnings := u.total_earnings + bonusAmount })
          let p2 := takeFault p1.2
          if p2.1 then .error s1 else
          let s2 := updateReferralsById s1 referral.id (fun r =>
            { r with bonus_earned := r.bonus_earned + bonusAmount,
                     tasks_completed := tasksCompleted })
          let p3 := takeFault p2.2
          if p3.1 then .error s2 else
          .ok { s2 with notifications := s2.notifications ++
            [{ user_id := referrerId, title := "¡Nuevo bono de referido!",
               type := "success" }] }
        else
          let p1 := takeFault faults
          if p1.1 then .error s else
          .ok (updateReferralsById s referral.id (fun r =>
            { r with tasks_completed := tasksCompleted }))

/-- Function `checkReferralBonuses(userId)`: the body wrapped in `try`/`catch` —
any thrown error is logged and swallowed, leaving whatever state the body
had produced up to the throw. -/
def checkReferralBonuses (faults : List Bool) (userId : Nat) (s : St) : St :=
  match checkReferralBonusesBody faults userId s with
  | .ok s' => s'
  | .error s' => s'

/-! ## `POST /:taskId/complete` (referrals.js lines 190–260) -/

/-- Outcome of `POST /:taskId/complete`. -/
inductive CompleteResult
  | ok (reward : Int) (userTask : UserTask)
  | taskNotFound
  | alreadyCompleted
  deriving Repr, DecidableEq

/-- Route `POST /:taskId/complete`: fetch the active task, reject a duplicate
completion, insert the `user_tasks` row, credit the user's balance and
`total_earnings` by the reward and bump `tasks_completed`, then run the
referral bonus engine. -/
def completeTask (faults : List Bool) (userId taskId : Nat) (s : St) :
    CompleteResult × St :=
  match findActiveTask s taskId with
  | none => (.taskNotFound, s)
  | some task =>
    match s.user_tasks.find? (fun ut => ut.user_id == userId && ut.task_id == taskId) with
    | some _ => (.alreadyCompleted, s)
    | none =>
      let ut : UserTask := { user_id := userId, task_id := taskId,
                             status := "completed", reward_amount := task.reward }
      let s1 := { s with user_tasks := s.user_tasks ++ [ut] }
      let s2 := updateUsersById s1 userId (fun u =>
        { u with balance := u.balance + task.reward,
                 total_earnings := u.total_earnings + task.reward,
                 tasks_completed := u.tasks_completed + 1 })
      let s3 := checkReferralBonuses faults userId s2
      (.ok task.reward ut, s3)

/-! ## Withdrawals (users.js lines 161–274 and 309–333) -/

def MINIMUM_WITHDRAWAL : Int := 25000

/-- Embeds `Math.round(amount * WITHDRAWAL_FEE_PERCENTAGE)` with
`WITHDRAWAL_FEE_PERCENTAGE = 0.10`.  For an integer `amount` (|amount| far
below 2^49) the double product rounds to the nearest double on the same side
of every half-integer as the exact rational `amount/10`, so `Math.round`
equals `⌊amount/10 + 1/2⌋ = (amount + 5).fdiv 10`. -/
def withdrawalFee (amount : Int) : Int :=
  Int.fdiv (amount + 5) 10

/-- Outcome of `POST /` on the withdrawals router. -/
inductive WithdrawResult
  | ok (w : Withdrawal)
  | missingFields
  | unsupportedMethod
  | belowMinimum
  | insufficientFunds
  deriving Repr, DecidableEq

/-- Request withdrawal: validate fields, method, minimum and balance; insert
the `pending` withdrawal row, then debit the full amount from the balance and
insert a notification.  A missing user row makes `!user` true, giving the
same `Insufficient balance` response. -/
def requestWithdrawal (userId : Nat) (amount : Int) (method account_info : String)
    (s : St) : WithdrawResult × St :=
  if amount == 0 || method == "" || account_info == "" then (.missingFields, s)
  else if !(["paypal", "nequi"].contains method) then (.unsupportedMethod, s)
  else if amount < MINIMUM_WITHDRAWAL then (.belowMinimum, s)
  else
    match lookupUser s userId with
    | none => (.insufficientFunds, s)
    | some user =>
      if user.balance < amount then (.insufficientFunds, s)
      else
        let fee := withdrawalFee amount
        let netAmount := amount - fee
        let w : Withdrawal := { user_id := userId, amount := amount,
                                method := method, account_info := account_info,
                                fee := fee, net_amount := netAmount,
                                status := "pending" }
        let s1 := { s with withdrawals := s.withdrawals ++ [w] }
        let s2 := updateUsersById s1 userId (fun u =>
          { u with balance := u.balance - amount })
        let s3 := { s2 with notifications := s2.notifications ++
          [{ user_id := userId, title := "Solicitud de retiro recibida",
             type := "info" }] }
        (.ok w, s3)

/-- Outcome of `POST /calculate-fee`. -/
inductive FeeResult
  | ok (amount fee net_amount : Int)
  | invalidAmount
  deriving Repr, DecidableEq

/-- Route `POST /calculate-fee`: pure fee query. -/
def calculateFee (amount : Int) : FeeResult :=
  if amount == 0 || amount < MINIMUM_WITHDRAWAL then .invalidAmount
  else .ok amount (withdrawalFee amount) (amount - withdrawalFee amount)

/-! ## Helper lemmas -/

theorem find_map_comm {α : Type} (g : α → α) (p : α → Bool)
    (h : ∀ x, p (g x) = p x) (l : List α) :
    (l.map g).find? p = (l.find? p).map g := by
  induction l with
  | nil => simp
  | cons a l ih =>
    by_cases hp : p a = true
    · rw [List.map_cons, List.find?_cons_of_pos _ ((h a).trans hp),
        List.find?_cons_of_pos _ hp, Option.map]
    · rw [List.map_cons, List.find?_cons_of_neg _ (by simp [h a, hp]),
        List.find?_cons_of_neg _ (by simp [hp]), ih]

@[simp] theorem users_updateReferralsById (s : St) (i : Nat) (f : Referral → Referral) :
    (updateReferralsById s i f).users = s.users := rfl

@[simp] theorem referrals_updateUsersById (s : St) (uid : Nat) (f : User → User) :
    (updateUsersById s uid f).referrals = s.referrals := rfl

@[simp] theorem lookupUser_updateReferralsById (s : St) (i : Nat)
    (f : Referral → Referral) (uid : Nat) :
    lookupUser (updateReferralsById s i f) uid = lookupUser s uid := rfl

@[simp] theorem findReferral_updateUsersById (s : St) (t : Nat)
    (f : User → User) (rid uid : Nat) :
    findReferral (updateUsersById s t f) rid uid = findReferral s rid uid := rfl

theorem lookupUser_updateUsersById (s : St) (tid : Nat) (f : User → User)
    (hf : ∀ u, (f u).id = u.id) (uid : Nat) :
    lookupUser (updateUsersById s tid f) uid =
      (lookupUser s uid).map (fun u => if u.id == tid then f u else u) := by
  unfold lookupUser updateUsersById
  exact find_map_comm _ _ (fun u => by by_cases h : u.id == tid <;> simp [h, hf]) _

theorem lookupUser_id (s : St) (uid : Nat) (u : User)
    (h : lookupUser s uid = some u) : u.id = uid := by
  have := List.find?_some h
  simpa using this

theorem lookupUser_update_ne (s : St) (tid : Nat) (f : User → User)
    (hf : ∀ u, (f u).id = u.id) (uid : Nat) (hne : uid ≠ tid) :
    lookupUser (updateUsersById s tid f) uid = lookupUser s uid := by
  rw [lookupUser_updateUsersById s tid f hf uid]
  cases h : lookupUser s uid with
  | none => rfl
  | some u =>
    have hid := lookupUser_id s uid u h
    simp [hid, hne]

theorem lookupUser_update_self (s : St) (tid : Nat) (f : User → User)
    (hf : ∀ u, (f u).id = u.id) (v : User) (hv : lookupUser s tid = some v) :
    lookupUser (updateUsersById s tid f) tid = some (f v) := by
  rw [lookupUser_updateUsersById s tid f hf tid, hv]
  have hid := lookupUser_id s tid v hv
  simp [hid]

theorem findReferral_id (s : St) (rid uid : Nat) (r : Referral)
    (h : findReferral s rid uid = some r) :
    r.referrer_id = rid ∧ r.referred_id = uid := by
  have := List.find?_some h
  simp at this
  exact this

theorem findReferral_updateReferralsById (s : St) (i : Nat) (f : Referral → Referral)
    (hf : ∀ r, (f r).referrer_id = r.referrer_id ∧ (f r).referred_id = r.referred_id)
    (rid uid : Nat) :
    findReferral (updateReferralsById s i f) rid uid =
      (findReferral s rid uid).map (fun r => if r.id == i then f r else r) := by
  unfold findReferral updateReferralsById
  refine find_map_comm _ _ (fun r => ?_) _
  by_cases h : r.id == i <;> simp [h, (hf r).1, (hf r).2]

theorem milestoneBonus_eq (t snap : Nat) :
    milestoneBonus t snap =
      if t = 3 ∧ snap < 3 then 5000
      else if t = 7 ∧ snap < 7 then 4000
      else if t = 15 ∧ snap < 15 then 8000
      else 0 := by
  unfold milestoneBonus
  rcases eq_or_ne t 3 with h3 | h3 <;> rcases eq_or_ne t 7 with h7 | h7 <;>
    rcases eq_or_ne t 15 with h15 | h15 <;> simp_all

/-- A no-firing evaluation only advances the referral snapshot. -/
theorem checkReferralBonuses_noAward (s : St) (uid rid : Nat) (usr : User)
    (ref : Referral)
    (hu : lookupUser s uid = some usr)
    (hrb : usr.referred_by = some rid)
    (href : findReferral s rid uid = some ref)
    (hB : milestoneBonus usr.tasks_completed ref.tasks_completed = 0) :
    checkReferralBonuses [] uid s =
      updateReferralsById s ref.id
        (fun r => { r with tasks_completed := usr.tasks_completed }) := by
  unfold checkReferralBonuses checkReferralBonusesBody
  simp only [hu, hrb, href, takeFault, hB]
  simp

/-- A firing evaluation: the three storage writes of the bonus branch. -/
theorem checkReferralBonuses_award (s : St) (uid rid : Nat) (usr : User)
    (ref : Referral)
    (hu : lookupUser s uid = some usr)
    (hrb : usr.referred_by = some rid)
    (href : findReferral s rid uid = some ref)
    (hBpos : 0 < milestoneBonus usr.tasks_completed ref.tasks_completed) :
    checkReferralBonuses [] uid s =
      (let B := milestoneBonus usr.tasks_completed ref.tasks_completed
       let s1 := updateUsersById s rid (fun u =>
         { u with balance := u.balance + B, total_earnings := u.total_earnings + B })
       let s2 := updateReferralsById s1 ref.id (fun r =>
         { r with bonus_earned := r.bonus_earned + B,
                  tasks_completed := usr.tasks_completed })
       { s2 with notifications := s2.notifications ++
         [{ user_id := rid, title := "¡Nuevo bono de referido!",
            type := "success" }] }) := by
  unfold checkReferralBonuses checkReferralBonusesBody
  simp only [hu, hrb, href, takeFault, hBpos]
  simp [hBpos]

@[simp] theorem lookupUser_set_notifications (s : St) (x : List Notification) (uid : Nat) :
    lookupUser { s with notifications := x } uid = lookupUser s uid := rfl

@[simp] theorem findReferral_set_notifications (s : St) (x : List Notification) (rid uid : Nat) :
    findReferral { s with notifications := x } rid uid = findReferral s rid uid := rfl

theorem milestoneBonus_self (t : Nat) : milestoneBonus t t = 0 := by
  rw [milestoneBonus_eq]
  split_ifs <;> omega

/-- The bonus credit of the referral engine, read back at the referrer. -/
theorem lookupUser_credit_self (s : St) (rid : Nat) (b : Int) (v : User)
    (hv : lookupUser s rid = some v) :
    lookupUser (updateUsersById s rid (fun u =>
      { u with balance := u.balance + b, total_earnings := u.total_earnings + b })) rid =
    some { v with balance := v.balance + b, total_earnings := v.total_earnings + b } :=
  lookupUser_update_self s rid (fun u =>
    { u with balance := u.balance + b, total_earnings := u.total_earnings + b })
    (fun _ => rfl) v hv

/-- The bonus credit of the referral engine, read back at another user. -/
theorem lookupUser_credit_ne (s : St) (rid : Nat) (b : Int) (uid : Nat)
    (hne : uid ≠ rid) :
    lookupUser (updateUsersById s rid (fun u =>
      { u with balance := u.balance + b, total_earnings := u.total_earnings + b })) uid =
    lookupUser s uid :=
  lookupUser_update_ne s rid (fun u =>
    { u with balance := u.balance + b, total_earnings := u.total_earnings + b })
    (fun _ => rfl) uid hne

theorem findReferral_update_snapshot_bonus (s : St) (i : Nat) (b : Int) (t : Nat)
    (rid uid : Nat) :
    findReferral (updateReferralsById s i (fun r =>
      { r with bonus_earned := r.bonus_earned + b, tasks_completed := t })) rid uid =
    (findReferral s rid uid).map (fun r =>
      if r.id == i then { r with bonus_earned := r.bonus_earned + b, tasks_completed := t }
      else r) :=
  findReferral_updateReferralsById s i (fun r =>
    { r with bonus_earned := r.bonus_earned + b, tasks_completed := t })
    (fun _ => ⟨rfl, rfl⟩) rid uid

theorem findReferral_update_snapshot (s : St) (i t rid uid : Nat) :
    findReferral (updateReferralsById s i (fun r =>
      { r with tasks_completed := t })) rid uid =
    (findReferral s rid uid).map (fun r =>
      if r.id == i then { r with tasks_completed := t } else r) :=
  findReferral_updateReferralsById s i (fun r => { r with tasks_completed := t })
    (fun _ => ⟨rfl, rfl⟩) rid uid

/-! ## Claim C1 -/

/-- C1: a milestone bonus fires exactly once per referral pair: when the
referred user's current `tasks_completed` equals a threshold (3, 7 or 15)
and the referral record's stored snapshot is strictly below it, the
referrer's balance increases by exactly the fixed bonus of that threshold
(3→5000, 7→4000, 15→8000), `bonus_earned` increases by the same amount and
the snapshot becomes the current count; running the evaluation again with
the user's count unchanged changes no user balance and no `bonus_earned`. -/
theorem milestone_fires_exactly_once (s : St) (uid rid : Nat) (usr rf : User)
    (ref : Referral)
    (hu : lookupUser s uid = some usr)
    (hrb : usr.referred_by = some rid)
    (hne : rid ≠ uid)
    (hr : lookupUser s rid = some rf)
    (href : findReferral s rid uid = some ref)
    (hth : usr.tasks_completed = 3 ∨ usr.tasks_completed = 7 ∨ usr.tasks_completed = 15)
    (hsnap : ref.tasks_completed < usr.tasks_completed) :
    milestoneBonus usr.tasks_completed ref.tasks_completed =
      (if usr.tasks_completed = 3 then (5000 : Int)
       else if usr.tasks_completed = 7 then 4000 else 8000) ∧
    (∃ rf', lookupUser (checkReferralBonuses [] uid s) rid = some rf' ∧
       rf'.balance = rf.balance + milestoneBonus usr.tasks_completed ref.tasks_completed) ∧
    (∃ ref', findReferral (checkReferralBonuses [] uid s) rid uid = some ref' ∧
       ref'.bonus_earned = ref.bonus_earned +
         milestoneBonus usr.tasks_completed ref.tasks_completed ∧
       ref'.tasks_completed = usr.tasks_completed) ∧
    (checkReferralBonuses [] uid (checkReferralBonuses [] uid s)).users =
      (checkReferralBonuses [] uid s).users ∧
    (∃ ref'', findReferral (checkReferralBonuses [] uid (checkReferralBonuses [] uid s))
        rid uid = some ref'' ∧
       ref''.bonus_earned = ref.bonus_earned +
         milestoneBonus usr.tasks_completed ref.tasks_completed) := by
  have hB : milestoneBonus usr.tasks_completed ref.tasks_completed =
      (if usr.tasks_completed = 3 then (5000 : Int)
       else if usr.tasks_completed = 7 then 4000 else 8000) := by
    rcases hth with h | h | h <;> rw [h] at hsnap <;> rw [milestoneBonus_eq, h] <;>
      simp [hsnap]
  have hBpos : 0 < milestoneBonus usr.tasks_completed ref.tasks_completed := by
    rw [hB]
    rcases hth with h | h | h <;> rw [h] <;> norm_num
  set B := milestoneBonus usr.tasks_completed ref.tasks_completed with hBdef
  have hs' := checkReferralBonuses_award s uid rid usr ref hu hrb href hBpos
  -- the three rows after the first evaluation
  have h1 : lookupUser (checkReferralBonuses [] uid s) rid =
      some { rf with balance := rf.balance + B, total_earnings := rf.total_earnings + B } := by
    rw [hs']
    show lookupUser (updateUsersById s rid (fun u =>
      { u with balance := u.balance + B, total_earnings := u.total_earnings + B })) rid = _
    exact lookupUser_credit_self s rid B rf hr
  have h2 : findReferral (checkReferralBonuses [] uid s) rid uid =
      some { ref with bonus_earned := ref.bonus_earned + B,
                      tasks_completed := usr.tasks_completed } := by
    rw [hs']
    show findReferral (updateReferralsById (updateUsersById s rid (fun u =>
        { u with balance := u.balance + B, total_earnings := u.total_earnings + B }))
      ref.id (fun r => { r with bonus_earned := r.bonus_earned + B,
                                tasks_completed := usr.tasks_completed })) rid uid = _
    rw [findReferral_update_snapshot_bonus, findReferral_updateUsersById, href]
    simp
  have hu' : lookupUser (checkReferralBonuses [] uid s) uid = some usr := by
    rw [hs']
    show lookupUser (updateUsersById s rid (fun u =>
      { u with balance := u.balance + B, total_earnings := u.total_earnings + B })) uid = _
    rw [lookupUser_credit_ne s rid B uid (Ne.symm hne), hu]
  -- the second evaluation does not fire
  have hB2 : milestoneBonus usr.tasks_completed
      ({ ref with bonus_earned := ref.bonus_earned + B,
                  tasks_completed := usr.tasks_completed } : Referral).tasks_completed = 0 :=
    milestoneBonus_self usr.tasks_completed
  have hs'' := checkReferralBonuses_noAward (checkReferralBonuses [] uid s) uid rid usr
    { ref with bonus_earned := ref.bonus_earned + B,
               tasks_completed := usr.tasks_completed } hu' hrb h2 hB2
  refine ⟨hB, ⟨_, h1, rfl⟩, ⟨_, h2, rfl, rfl⟩, ?_, ?_⟩
  · rw [hs'']
    rfl
  · rw [hs'']
    show (∃ ref'', findReferral (updateReferralsById (checkReferralBonuses [] uid s) ref.id
      (fun r => { r with tasks_completed := usr.tasks_completed })) rid uid = some ref'' ∧ _)
    rw [findReferral_update_snapshot, h2]
    simp

/-- The referrer in the C1 witness scenario. -/
def c1_referrer : User :=
  { id := 1, balance := 100, total_earnings := 100, tasks_completed := 0,
    referred_by := none }

/-- The referred user in the C1 witness scenario, at 3 completed tasks. -/
def c1_referred : User :=
  { id := 2, balance := 0, total_earnings := 0, tasks_completed := 3,
    referred_by := some 1 }

/-- The referral record in the C1 witness scenario, snapshot 2. -/
def c1_ref : Referral :=
  { id := 5, referrer_id := 1, referred_id := 2, bonus_earned := 0,
    tasks_completed := 2 }

def c1_state : St :=
  { users := [c1_referrer, c1_referred], tasks := [], user_tasks := [],
    referrals := [c1_ref], transactions := [], withdrawals := [],
    notifications := [] }

theorem milestone_fires_exactly_once_witness :
    (1 : Nat) ≠ 2 ∧ c1_ref.tasks_completed < c1_referred.tasks_completed ∧
    (milestoneBonus c1_referred.tasks_completed c1_ref.tasks_completed =
      (if c1_referred.tasks_completed = 3 then (5000 : Int)
       else if c1_referred.tasks_completed = 7 then 4000 else 8000) ∧
    (∃ rf', lookupUser (checkReferralBonuses [] 2 c1_state) 1 = some rf' ∧
       rf'.balance = c1_referrer.balance +
         milestoneBonus c1_referred.tasks_completed c1_ref.tasks_completed) ∧
    (∃ ref', findReferral (checkReferralBonuses [] 2 c1_state) 1 2 = some ref' ∧
       ref'.bonus_earned = c1_ref.bonus_earned +
         milestoneBonus c1_referred.tasks_completed c1_ref.tasks_completed ∧
       ref'.tasks_completed = c1_referred.tasks_completed) ∧
    (checkReferralBonuses [] 2 (checkReferralBonuses [] 2 c1_state)).users =
      (checkReferralBonuses [] 2 c1_state).users ∧
    (∃ ref'', findReferral (checkReferralBonuses [] 2 (checkReferralBonuses [] 2 c1_state))
        1 2 = some ref'' ∧
       ref''.bonus_earned = c1_ref.bonus_earned +
         milestoneBonus c1_referred.tasks_completed c1_ref.tasks_completed)) :=
  ⟨by decide, by decide,
    milestone_fires_exactly_once c1_state 2 1 c1_referred c1_referrer c1_ref
      rfl rfl (by decide) rfl rfl (Or.inl rfl) (by decide)⟩

/-! ## Claim C9 -/

/-- C9: when the referred user's count has passed a threshold without landing
on any threshold exactly (count > T, snapshot < T, count ∉ {3,7,15}), the
evaluation awards nothing — the users table is untouched and `bonus_earned`
unchanged — while the snapshot advances to the current count; and since
counts only grow, no later evaluation can ever produce the bonus of the
skipped threshold T. -/
theorem skipped_milestone_never_awarded (s : St) (uid rid T : Nat) (usr : User)
    (ref : Referral)
    (hu : lookupUser s uid = some usr)
    (hrb : usr.referred_by = some rid)
    (href : findReferral s rid uid = some ref)
    (hth : T = 3 ∨ T = 7 ∨ T = 15)
    (hsnap : ref.tasks_completed < T)
    (hgt : T < usr.tasks_completed)
    (h3 : usr.tasks_completed ≠ 3) (h7 : usr.tasks_completed ≠ 7)
    (h15 : usr.tasks_completed ≠ 15) :
    (checkReferralBonuses [] uid s).users = s.users ∧
    (∃ ref', findReferral (checkReferralBonuses [] uid s) rid uid = some ref' ∧
       ref'.tasks_completed = usr.tasks_completed ∧
       ref'.bonus_earned = ref.bonus_earned) ∧
    (∀ c snap : Nat, usr.tasks_completed ≤ c →
       milestoneBonus c snap ≠
         (if T = 3 then (5000 : Int) else if T = 7 then 4000 else 8000)) := by
  have hB : milestoneBonus usr.tasks_completed ref.tasks_completed = 0 := by
    rw [milestoneBonus_eq]
    split_ifs <;> omega
  have hs' := checkReferralBonuses_noAward s uid rid usr ref hu hrb href hB
  refine ⟨by rw [hs']; rfl, ?_, ?_⟩
  · rw [hs', findReferral_update_snapshot, href]
    simp
  · intro c snap hc
    rw [milestoneBonus_eq]
    rcases hth with h | h | h <;> subst h <;> split_ifs <;> omega

/-- The referred user in the C9 witness scenario: 4 completed tasks, having
skipped the threshold at 3. -/
def c9_referred : User :=
  { id := 2, balance := 0, total_earnings := 0, tasks_completed := 4,
    referred_by := some 1 }

/-- The referral record in the C9 witness scenario, snapshot 2. -/
def c9_ref : Referral :=
  { id := 6, referrer_id := 1, referred_id := 2, bonus_earned := 0,
    tasks_completed := 2 }

def c9_state : St :=
  { users := [c9_referred], tasks := [], user_tasks := [],
    referrals := [c9_ref], transactions := [], withdrawals := [],
    notifications := [] }

theorem skipped_milestone_never_awarded_witness :
    c9_ref.tasks_completed < 3 ∧ 3 < c9_referred.tasks_completed ∧
    ((checkReferralBonuses [] 2 c9_state).users = c9_state.users ∧
    (∃ ref', findReferral (checkReferralBonuses [] 2 c9_state) 1 2 = some ref' ∧
       ref'.tasks_completed = c9_referred.tasks_completed ∧
       ref'.bonus_earned = c9_ref.bonus_earned) ∧
    (∀ c snap : Nat, c9_referred.tasks_completed ≤ c →
       milestoneBonus c snap ≠
         (if (3 : Nat) = 3 then (5000 : Int) else if (3 : Nat) = 7 then 4000 else 8000))) :=
  ⟨by decide, by decide,
    skipped_milestone_never_awarded c9_state 2 1 3 c9_referred c9_ref
      rfl rfl rfl (Or.inl rfl) (by decide) (by decide) (by decide) (by decide)
      (by decide)⟩

/-! ## Claims C5, C6 and C7 -/

@[simp] theorem lookupUser_set_user_tasks (s : St) (x : List UserTask) (uid : Nat) :
    lookupUser { s with user_tasks := x } uid = lookupUser s uid := rfl

@[simp] theorem lookupUser_set_withdrawals (s : St) (x : List Withdrawal) (uid : Nat) :
    lookupUser { s with withdrawals := x } uid = lookupUser s uid := rfl

/-- The task-completion credit, read back at the completing user. -/
theorem lookupUser_taskCredit_self (s : St) (uid : Nat) (rwd : Int) (v : User)
    (hv : lookupUser s uid = some v) :
    lookupUser (updateUsersById s uid (fun u =>
      { u with balance := u.balance + rwd, total_earnings := u.total_earnings + rwd,
               tasks_completed := u.tasks_completed + 1 })) uid =
    some { v with balance := v.balance + rwd, total_earnings := v.total_earnings + rwd,
                  tasks_completed := v.tasks_completed + 1 } :=
  lookupUser_update_self s uid (fun u =>
    { u with balance := u.balance + rwd, total_earnings := u.total_earnings + rwd,
             tasks_completed := u.tasks_completed + 1 })
    (fun _ => rfl) v hv

/-- The withdrawal debit, read back at the withdrawing user. -/
theorem lookupUser_debit_self (s : St) (uid : Nat) (a : Int) (v : User)
    (hv : lookupUser s uid = some v) :
    lookupUser (updateUsersById s uid (fun u => { u with balance := u.balance - a })) uid =
    some { v with balance := v.balance - a } :=
  lookupUser_update_self s uid (fun u => { u with balance := u.balance - a })
    (fun _ => rfl) v hv

/-- Whatever faults hit the referral engine, the only `users` row it ever
writes is the referrer's, so any other user's row is untouched. -/
theorem lookupUser_checkReferralBonuses_ne (faults : List Bool) (uid x : Nat)
    (s : St)
    (h : ∀ usr rid, lookupUser s uid = some usr → usr.referred_by = some rid → x ≠ rid) :
    lookupUser (checkReferralBonuses faults uid s) x = lookupUser s x := by
  unfold checkReferralBonuses checkReferralBonusesBody
  rcases hu : lookupUser s uid with _ | usr
  · simp
  · rcases hrb : usr.referred_by with _ | rid
    · simp [hrb]
    · have hne : x ≠ rid := h usr rid hu hrb
      rcases href : findReferral s rid uid with _ | ref
      · simp [hrb, href]
      · simp only [hrb, href]
        by_cases hb : milestoneBonus usr.tasks_completed ref.tasks_completed > 0
        · simp only [if_pos hb]
          rcases hf1 : (takeFault faults).1
          · rcases hf2 : (takeFault (takeFault faults).2).1
            · rcases hf3 : (takeFault (takeFault (takeFault faults).2).2).1
              · simp only [hf1, hf2, hf3, Bool.false_eq_true, if_false]
                rw [lookupUser_set_notifications, lookupUser_updateReferralsById,
                  lookupUser_credit_ne _ _ _ _ hne]
              · simp only [hf1, hf2, hf3, Bool.false_eq_true, if_false, if_true]
                rw [lookupUser_updateReferralsById, lookupUser_credit_ne _ _ _ _ hne]
            · simp only [hf1, hf2, Bool.false_eq_true, if_false, if_true]
              rw [lookupUser_credit_ne _ _ _ _ hne]
          · simp only [hf1, if_true]
        · simp only [if_neg hb]
          rcases hf1 : (takeFault faults).1
          · simp only [hf1, Bool.false_eq_true, if_false,
              lookupUser_updateReferralsById]
          · simp only [hf1, if_true]

/-- C5: when a `user_tasks` row already exists for the pair, a second
completion attempt fails with `AlreadyCompleted` and the store — hence the
user's balance — is unchanged. -/
theorem completeTask_already_completed (faults : List Bool) (s : St)
    (uid tid : Nat) (task : Task) (ut : UserTask)
    (htask : findActiveTask s tid = some task)
    (hdone : s.user_tasks.find? (fun x => x.user_id == uid && x.task_id == tid) = some ut) :
    (completeTask faults uid tid s).1 = CompleteResult.alreadyCompleted ∧
    (completeTask faults uid tid s).2 = s ∧
    lookupUser (completeTask faults uid tid s).2 uid = lookupUser s uid := by
  unfold completeTask
  simp [htask, hdone]

/-- C6: the referral bonus engine's errors are swallowed: whatever faults its
storage operations throw, a task completion that passes its own checks still
returns the same successful response (reward and completion record) as a
fault-free run. -/
theorem referral_failure_never_fails_completion (faults : List Bool) (s : St)
    (uid tid : Nat) (task : Task)
    (htask : findActiveTask s tid = some task)
    (hnew : s.user_tasks.find? (fun ut => ut.user_id == uid && ut.task_id == tid) = none) :
    (completeTask faults uid tid s).1 =
      CompleteResult.ok task.reward
        { user_id := uid, task_id := tid, status := "completed",
          reward_amount := task.reward } ∧
    (completeTask faults uid tid s).1 = (completeTask [] uid tid s).1 := by
  unfold completeTask
  simp [htask, hnew]

/-- C7: a successful completion of an active, not yet completed task with
reward R credits the user's balance and `total_earnings` with R, increments
`tasks_completed`, and returns the reward and the completion record. -/
theorem completeTask_success (faults : List Bool) (s : St) (uid tid : Nat)
    (task : Task) (usr : User)
    (htask : findActiveTask s tid = some task)
    (hnew : s.user_tasks.find? (fun ut => ut.user_id == uid && ut.task_id == tid) = none)
    (hu : lookupUser s uid = some usr)
    (hself : ∀ rid, usr.referred_by = some rid → uid ≠ rid) :
    (completeTask faults uid tid s).1 =
      CompleteResult.ok task.reward
        { user_id := uid, task_id := tid, status := "completed",
          reward_amount := task.reward } ∧
    ∃ usr', lookupUser (completeTask faults uid tid s).2 uid = some usr' ∧
      usr'.balance = usr.balance + task.reward ∧
      usr'.total_earnings = usr.total_earnings + task.reward ∧
      usr'.tasks_completed = usr.tasks_completed + 1 := by
  have hu1 : lookupUser { s with user_tasks := s.user_tasks ++
      [{ user_id := uid, task_id := tid, status := "completed",
         reward_amount := task.reward }] } uid = some usr := by
    rw [lookupUser_set_user_tasks, hu]
  have hu2 := lookupUser_taskCredit_self _ uid task.reward usr hu1
  refine ⟨by unfold completeTask; simp [htask, hnew], ?_⟩
  have hstate : (completeTask faults uid tid s).2 =
      checkReferralBonuses faults uid (updateUsersById { s with user_tasks :=
        s.user_tasks ++ [{ user_id := uid, task_id := tid, status := "completed",
                           reward_amount := task.reward }] } uid (fun u =>
        { u with balance := u.balance + task.reward,
                 total_earnings := u.total_earnings + task.reward,
                 tasks_completed := u.tasks_completed + 1 })) := by
    unfold completeTask
    simp [htask, hnew]
  rw [hstate, lookupUser_checkReferralBonuses_ne _ _ _ _ ?_, hu2]
  · exact ⟨_, rfl, rfl, rfl, rfl⟩
  · intro usr2 rid h1 h2
    rw [hu2] at h1
    cases h1
    exact hself rid h2

/-- Active task shared by the C5 witness scenario. -/
def c5_task : Task := { id := 10, reward := 500, status := "active" }

/-- Completion already on record in the C5 witness scenario. -/
def c5_ut : UserTask :=
  { user_id := 1, task_id := 10, status := "completed", reward_amount := 500 }

def c5_state : St :=
  { users := [{ id := 1, balance := 500, total_earnings := 500,
                tasks_completed := 1, referred_by := none }],
    tasks := [c5_task], user_tasks := [c5_ut], referrals := [],
    transactions := [], withdrawals := [], notifications := [] }

theorem completeTask_already_completed_witness :
    findActiveTask c5_state 10 = some c5_task ∧
    ((completeTask [] 1 10 c5_state).1 = CompleteResult.alreadyCompleted ∧
     (completeTask [] 1 10 c5_state).2 = c5_state ∧
     lookupUser (completeTask [] 1 10 c5_state).2 1 = lookupUser c5_state 1) :=
  ⟨rfl, completeTask_already_completed [] c5_state 1 10 c5_task c5_ut rfl rfl⟩

/-- Active task in the C6 witness scenario. -/
def c6_task : Task := { id := 10, reward := 500, status := "active" }

/-- C6 witness state: the completing user has a referrer and stands one task
before the 3-task milestone, so the engine's first write is reached — and
made to throw by the fault schedule `[true]`. -/
def c6_state : St :=
  { users := [{ id := 1, balance := 0, total_earnings := 0,
                tasks_completed := 0, referred_by := none },
              { id := 2, balance := 0, total_earnings := 0,
                tasks_completed := 2, referred_by := some 1 }],
    tasks := [c6_task], user_tasks := [],
    referrals := [{ id := 5, referrer_id := 1, referred_id := 2,
                    bonus_earned := 0, tasks_completed := 2 }],
    transactions := [], withdrawals := [], notifications := [] }

theorem referral_failure_never_fails_completion_witness :
    (completeTask [true] 2 10 c6_state).1 =
      CompleteResult.ok c6_task.reward
        { user_id := 2, task_id := 10, status := "completed",
          reward_amount := c6_task.reward } ∧
    (completeTask [true] 2 10 c6_state).1 = (completeTask [] 2 10 c6_state).1 :=
  referral_failure_never_fails_completion [true] c6_state 2 10 c6_task rfl rfl

/-- The completing user of the C7 witness scenario. -/
def c7_user : User :=
  { id := 1, balance := 0, total_earnings := 0, tasks_completed := 0,
    referred_by := none }

/-- Active task in the C7 witness scenario. -/
def c7_task : Task := { id := 10, reward := 500, status := "active" }

def c7_state : St :=
  { users := [c7_user], tasks := [c7_task], user_tasks := [], referrals := [],
    transactions := [], withdrawals := [], notifications := [] }

theorem completeTask_success_witness :
    lookupUser c7_state 1 = some c7_user ∧
    ((completeTask [] 1 10 c7_state).1 =
      CompleteResult.ok c7_task.reward
        { user_id := 1, task_id := 10, status := "completed",
          reward_amount := c7_task.reward } ∧
     ∃ usr', lookupUser (completeTask [] 1 10 c7_state).2 1 = some usr' ∧
       usr'.balance = c7_user.balance + c7_task.reward ∧
       usr'.total_earnings = c7_user.total_earnings + c7_task.reward ∧
       usr'.tasks_completed = c7_user.tasks_completed + 1) :=
  ⟨rfl, completeTask_success [] c7_state 1 10 c7_task c7_user rfl rfl rfl
    (fun _ h => Option.noConfusion h)⟩

/-! ## Claims C4, C8 and C10 -/

/-- The embedded fee really is the rounded 10% of the amount: `Math.round`
on `amount * 0.10` agrees with the exact rational rounding. -/
theorem withdrawalFee_eq_round (a : Int) : withdrawalFee a = round ((a : ℚ) * 0.1) := by
  have h01 : (a : ℚ) * 0.1 + 1/2 = ((a + 5 : ℤ) : ℚ) / ((10 : ℕ) : ℚ) := by
    push_cast
    ring
  rw [round_eq, h01, Rat.floor_intCast_div_natCast]
  unfold withdrawalFee
  exact Int.fdiv_eq_ediv _ (by norm_num)

/-- Shared successful-withdrawal lemma: with authentic fields, a supported
method, the minimum met and sufficient balance, the request succeeds, the
stored fee is the embedded rounded 10% with net_amount the remainder, and
the balance is debited by the full amount. -/
theorem requestWithdrawal_valid (s : St) (uid : Nat) (usr : User)
    (amount : Int) (method account_info : String)
    (hu : lookupUser s uid = some usr)
    (hm : method = "paypal" ∨ method = "nequi")
    (hai : account_info ≠ "")
    (hmin : MINIMUM_WITHDRAWAL ≤ amount)
    (hbal : amount ≤ usr.balance) :
    ∃ w, (requestWithdrawal uid amount method account_info s).1 = WithdrawResult.ok w ∧
      w.amount = amount ∧
      w.fee = round ((amount : ℚ) * 0.1) ∧
      w.net_amount = amount - w.fee ∧
      ∃ usr', lookupUser (requestWithdrawal uid amount method account_info s).2 uid =
          some usr' ∧
        usr'.balance = usr.balance - amount := by
  have hmin' : (25000 : Int) ≤ amount := hmin
  have hb1 : (amount == 0) = false := beq_false_of_ne (by omega)
  have hb2 : (method == "") = false := by rcases hm with h | h <;> simp [h]
  have hb3 : (account_info == "") = false := beq_false_of_ne hai
  have hb4 : (["paypal", "nequi"].contains method) = true := by
    rcases hm with h | h <;> simp [h]
  have hlt : ¬(amount < MINIMUM_WITHDRAWAL) := not_lt.mpr hmin
  have hblt : ¬(usr.balance < amount) := not_lt.mpr hbal
  unfold requestWithdrawal
  simp only [hb1, hb2, hb3, hb4, hu, hlt, hblt, Bool.or_false, Bool.false_or,
    Bool.or_self, Bool.not_true, Bool.false_eq_true, if_false, ite_false]
  refine ⟨_, rfl, rfl, withdrawalFee_eq_round amount, rfl, ?_⟩
  rw [lookupUser_set_notifications]
  exact ⟨_, lookupUser_debit_self _ uid amount usr
    (by rw [lookupUser_set_withdrawals, hu]), rfl⟩

/-- C4: a withdrawal request passing validation yields a withdrawal whose fee
is round(amount × 0.10) and whose net_amount is amount − fee, while the
user's balance is debited by the full amount (not net_amount). -/
theorem withdrawal_fee_and_full_debit (s : St) (uid : Nat) (usr : User)
    (amount : Int) (method account_info : String)
    (hu : lookupUser s uid = some usr)
    (hm : method = "paypal" ∨ method = "nequi")
    (hai : account_info ≠ "")
    (hmin : MINIMUM_WITHDRAWAL ≤ amount)
    (hbal : amount ≤ usr.balance) :
    ∃ w, (requestWithdrawal uid amount method account_info s).1 = WithdrawResult.ok w ∧
      w.amount = amount ∧
      w.fee = round ((amount : ℚ) * 0.1) ∧
      w.net_amount = amount - w.fee ∧
      ∃ usr', lookupUser (requestWithdrawal uid amount method account_info s).2 uid =
          some usr' ∧
        usr'.balance = usr.balance - amount :=
  requestWithdrawal_valid s uid usr amount method account_info hu hm hai hmin hbal

/-- The user of the C4 witness scenario, holding exactly 30000. -/
def c4_user : User :=
  { id := 3, balance := 30000, total_earnings := 30000, tasks_completed := 0,
    referred_by := none }

def c4_state : St :=
  { users := [c4_user], tasks := [], user_tasks := [], referrals := [],
    transactions := [], withdrawals := [], notifications := [] }

theorem withdrawal_fee_and_full_debit_witness :
    withdrawalFee 30000 = 3000 ∧ (30000 : Int) - withdrawalFee 30000 = 27000 ∧
    (∃ w, (requestWithdrawal 3 30000 "paypal" "acct" c4_state).1 =
        WithdrawResult.ok w ∧
      w.amount = 30000 ∧
      w.fee = round ((30000 : ℚ) * 0.1) ∧
      w.net_amount = 30000 - w.fee ∧
      ∃ usr', lookupUser (requestWithdrawal 3 30000 "paypal" "acct" c4_state).2 3 =
          some usr' ∧
        usr'.balance = c4_user.balance - 30000) :=
  ⟨by decide, by decide,
    withdrawal_fee_and_full_debit c4_state 3 c4_user 30000 "paypal" "acct"
      rfl (Or.inl rfl) (by decide) (by decide) (by decide)⟩

def c8_state : St :=
  { users := [{ id := 3, balance := 30000, total_earnings := 30000,
                tasks_completed := 0, referred_by := none }],
    tasks := [], user_tasks := [], referrals := [], transactions := [],
    withdrawals := [], notifications := [] }

/-- C8 counterexample: a request whose amount (10000) is strictly below
25000 but whose method is unsupported fails with `UnsupportedMethod`, not
`BelowMinimum` — the minimum check only runs after method validation, so the
claim as stated (every request with amount < 25000 fails with BelowMinimum)
is false. -/
theorem below_minimum_not_universal :
    (requestWithdrawal 3 10000 "bitcoin" "acct" c8_state).1 =
      WithdrawResult.unsupportedMethod ∧
    (requestWithdrawal 3 10000 "bitcoin" "acct" c8_state).1 ≠
      WithdrawResult.belowMinimum := by
  refine ⟨rfl, ?_⟩
  intro h
  exact WithdrawResult.noConfusion h

/-- C8 (amended): a withdrawal request with all fields present (nonzero
amount, nonempty account info) and a supported method whose amount is
strictly below 25000 fails with `BelowMinimum` and leaves the store — in
particular the balance and the withdrawals table — unchanged. -/
theorem withdrawal_below_minimum (s : St) (uid : Nat) (amount : Int)
    (method account_info : String)
    (hamt : amount ≠ 0)
    (hm : method = "paypal" ∨ method = "nequi")
    (hai : account_info ≠ "")
    (hmin : amount < 25000) :
    (requestWithdrawal uid amount method account_info s).1 =
      WithdrawResult.belowMinimum ∧
    (requestWithdrawal uid amount method account_info s).2 = s := by
  have hb1 : (amount == 0) = false := beq_false_of_ne hamt
  have hb2 : (method == "") = false := by rcases hm with h | h <;> simp [h]
  have hb3 : (account_info == "") = false := beq_false_of_ne hai
  have hb4 : (["paypal", "nequi"].contains method) = true := by
    rcases hm with h | h <;> simp [h]
  have hlt : amount < MINIMUM_WITHDRAWAL := hmin
  unfold requestWithdrawal
  simp only [hb1, hb2, hb3, hb4, hlt, Bool.or_false, Bool.false_or,
    Bool.or_self, Bool.not_true, Bool.false_eq_true, if_false, ite_false,
    if_true, ite_true]
  constructor <;> trivial

theorem withdrawal_below_minimum_witness :
    (10000 : Int) ≠ 0 ∧ (10000 : Int) < 25000 ∧
    ((requestWithdrawal 3 10000 "paypal" "acct" c8_state).1 =
       WithdrawResult.belowMinimum ∧
     (requestWithdrawal 3 10000 "paypal" "acct" c8_state).2 = c8_state) :=
  ⟨by decide, by decide,
    withdrawal_below_minimum c8_state 3 10000 "paypal" "acct"
      (by decide) (Or.inl rfl) (by decide) (by decide)⟩

/-- C10: a request for exactly the current balance passes the funds check —
the check rejects only `balance < amount` — and zeroes the balance. -/
theorem withdraw_entire_balance (s : St) (uid : Nat) (usr : User)
    (method account_info : String)
    (hu : lookupUser s uid = some usr)
    (hm : method = "paypal" ∨ method = "nequi")
    (hai : account_info ≠ "")
    (hmin : MINIMUM_WITHDRAWAL ≤ usr.balance) :
    ∃ w, (requestWithdrawal uid usr.balance method account_info s).1 =
        WithdrawResult.ok w ∧
      w.amount = usr.balance ∧
      ∃ usr', lookupUser (requestWithdrawal uid usr.balance method account_info s).2
          uid = some usr' ∧
        usr'.balance = 0 := by
  obtain ⟨w, hw, hwa, -, -, usr', husr', hbal⟩ :=
    requestWithdrawal_valid s uid usr usr.balance method account_info
      hu hm hai hmin le_rfl
  exact ⟨w, hw, hwa, usr', husr', by rw [hbal]; ring⟩

/-- The user of the C10 witness scenario. -/
def c10_user : User :=
  { id := 4, balance := 25000, total_earnings := 25000, tasks_completed := 0,
    referred_by := none }

def c10_state : St :=
  { users := [c10_user], tasks := [], user_tasks := [], referrals := [],
    transactions := [], withdrawals := [], notifications := [] }

theorem withdraw_entire_balance_witness :
    MINIMUM_WITHDRAWAL ≤ c10_user.balance ∧
    (∃ w, (requestWithdrawal 4 c10_user.balance "nequi" "acct" c10_state).1 =
        WithdrawResult.ok w ∧
      w.amount = c10_user.balance ∧
      ∃ usr', lookupUser (requestWithdrawal 4 c10_user.balance "nequi" "acct"
          c10_state).2 4 = some usr' ∧
        usr'.balance = 0) :=
  ⟨by decide,
    withdraw_entire_balance c10_state 4 c10_user "nequi" "acct"
      rfl (Or.inr rfl) (by decide) (by decide)⟩

/-! ## Claim C2 — counterexample state -/

/-- A fresh user with zero balance, no transactions, and one active task. -/
def c2_state : St :=
  { users := [{ id := 1, balance := 0, total_earnings := 0,
                tasks_completed := 0, referred_by := none }],
    tasks := [{ id := 10, reward := 500, status := "active" }],
    user_tasks := [], referrals := [], transactions := [],
    withdrawals := [], notifications := [] }

/-- C2: the claimed invariant "balance = sum of transaction amounts, every
balance-changing operation appends a matching Transaction" is violated by the
code: a single successful task completion credits the balance with 500 while
inserting no transaction row, so the balance (500) differs from the
transaction sum (0). -/
theorem completeTask_breaks_txn_invariant :
    (completeTask [] 1 10 c2_state).1 =
      CompleteResult.ok 500 { user_id := 1, task_id := 10, status := "completed",
                              reward_amount := 500 } ∧
    (lookupUser (completeTask [] 1 10 c2_state).2 1).map User.balance = some 500 ∧
    txnSum (completeTask [] 1 10 c2_state).2 1 = 0 ∧
    (completeTask [] 1 10 c2_state).2.transactions = [] := by
  refine ⟨rfl, rfl, rfl, rfl⟩

/-! ## Claim C3 — counterexample state -/

/-- A user holding a balance of 100. -/
def c3_state : St :=
  { users := [{ id := 1, balance := 100, total_earnings := 100,
                tasks_completed := 0, referred_by := none }],
    tasks := [], user_tasks := [], referrals := [], transactions := [],
    withdrawals := [], notifications := [] }

/-- C3: the claim "a debit exceeding the balance fails with InsufficientFunds
and leaves the balance unchanged" is violated by the code: `POST
/balance/update` performs no funds check at all, so debiting 200 from a
balance of 100 succeeds and drives the balance to −100. -/
theorem debit_overdraw_succeeds :
    (updateBalance 1 200 "subtract" none c3_state).1 = BalanceResult.ok (-100) 100 ∧
    (lookupUser (updateBalance 1 200 "subtract" none c3_state).2 1).map
      User.balance = some (-100) := by
  refine ⟨rfl, rfl⟩

end Ganamas
